import Mathlib

/-
Verification of the option-extractor and reply helper of src/interaction.rs.

The Rust source is shallowly embedded: the serenity payload types are modelled
by the fields the source reads (descriptor types such as User or Role are only
cloned by the source, so they are modelled by an identifier; an f64 payload is
only moved, so it is modelled by its raw bit pattern).  Rust panics (unwrap /
expect) are modelled by the error branch of Except, carrying the panic message.
-/

namespace Chronos

/-- Model of serenity's User; the source only clones it, so an identifier suffices. -/
structure User where
  id : Nat
  deriving DecidableEq

/-- Model of serenity's PartialMember; only cloned by the source. -/
structure PartialMember where
  id : Nat
  deriving DecidableEq

/-- Model of serenity's PartialChannel; only cloned by the source. -/
structure PartialChannel where
  id : Nat
  deriving DecidableEq

/-- Model of serenity's Role; only cloned by the source. -/
structure Role where
  id : Nat
  deriving DecidableEq

/-- Model of serenity's Attachment; only cloned by the source. -/
structure Attachment where
  id : Nat
  deriving DecidableEq

/-- Model of an IEEE-754 double by its raw bit pattern; the source only moves it. -/
structure F64 where
  bits : Nat
  deriving DecidableEq

/-- serenity's CommandOptionType enumeration. -/
inductive CommandOptionType where
  | subCommand
  | subCommandGroup
  | string
  | integer
  | boolean
  | user
  | channel
  | role
  | mentionable
  | number
  | attachment
  | unknown
  deriving DecidableEq

/-- serenity's CommandDataOptionValue tagged union. -/
inductive CommandDataOptionValue where
  | string (value : String)
  | integer (value : Int)
  | boolean (value : Bool)
  | user (value : User) (member : Option PartialMember)
  | channel (value : PartialChannel)
  | role (value : Role)
  | number (value : F64)
  | attachment (value : Attachment)
  deriving DecidableEq

/-- serenity's CommandDataOption: a named, typed node owning nested child
options and an optional resolved value (the fields the source reads). -/
inductive CommandDataOption where
  | mk (name : String) (kind : CommandOptionType)
      (options : List CommandDataOption)
      (resolved : Option CommandDataOptionValue)

/-- Field accessor for the name of an option. -/
def CommandDataOption.name : CommandDataOption → String
  | .mk n _ _ _ => n

/-- Field accessor for the kind of an option. -/
def CommandDataOption.kind : CommandDataOption → CommandOptionType
  | .mk _ k _ _ => k

/-- Field accessor for the child options of an option. -/
def CommandDataOption.options : CommandDataOption → List CommandDataOption
  | .mk _ _ o _ => o

/-- Field accessor for the resolved value of an option. -/
def CommandDataOption.resolved : CommandDataOption → Option CommandDataOptionValue
  | .mk _ _ _ r => r

/-- The interaction data read by the source: its top-level option list. -/
structure CommandData where
  options : List CommandDataOption

/-- serenity's ApplicationCommandInteraction, restricted to the data field
the source reads. -/
structure ApplicationCommandInteraction where
  data : CommandData

/-- Embedding of get_value of src/interaction.rs.  The two Rust panic sites
(unwrap of a group's first child, expect of a resolved value) become the
error branch carrying the panic message. -/
def get_value (interaction : ApplicationCommandInteraction) (name : String)
    (kind : CommandOptionType) : Except String (Option CommandDataOptionValue) :=
  let hoisted : Except String (List CommandDataOption) :=
    match interaction.data.options.head? with
    | some option =>
      match option.kind with
      | CommandOptionType.subCommand => Except.ok option.options
      | CommandOptionType.subCommandGroup =>
        match option.options.head? with
        | some first => Except.ok first.options
        | none => Except.error "called Option::unwrap() on a None value"
      | _ => Except.ok interaction.data.options
    | none => Except.ok interaction.data.options
  match hoisted with
  | Except.error e => Except.error e
  | Except.ok options =>
    match options.find? (fun option => option.kind == kind && option.name == name) with
    | some found_option =>
      match found_option.resolved with
      | some value => Except.ok (some value)
      | none => Except.error "No resolved value exists"
    | none => Except.ok none

/-- Embedding of get_subcommand of src/interaction.rs. -/
def get_subcommand (self : ApplicationCommandInteraction) : Option CommandDataOption :=
  let options :=
    match self.data.options.find?
        (fun option => option.kind == CommandOptionType.subCommandGroup) with
    | some group => self.data.options ++ group.options
    | none => self.data.options
  options.find? (fun option => option.kind == CommandOptionType.subCommand)

/-- Embedding of get_subcommand_group of src/interaction.rs. -/
def get_subcommand_group (self : ApplicationCommandInteraction) :
    Option CommandDataOption :=
  self.data.options.find?
    (fun option => option.kind == CommandOptionType.subCommandGroup)

/-- Embedding of get_string of src/interaction.rs. -/
def get_string (self : ApplicationCommandInteraction) (name : String) :
    Except String (Option String) :=
  match get_value self name CommandOptionType.string with
  | Except.ok (some (CommandDataOptionValue.string value)) => Except.ok (some value)
  | Except.error e => Except.error e
  | _ => Except.ok none

/-- Embedding of get_integer of src/interaction.rs. -/
def get_integer (self : ApplicationCommandInteraction) (name : String) :
    Except String (Option Int) :=
  match get_value self name CommandOptionType.integer with
  | Except.ok (some (CommandDataOptionValue.integer value)) => Except.ok (some value)
  | Except.error e => Except.error e
  | _ => Except.ok none

/-- Embedding of get_bool of src/interaction.rs. -/
def get_bool (self : ApplicationCommandInteraction) (name : String) :
    Except String (Option Bool) :=
  match get_value self name CommandOptionType.boolean with
  | Except.ok (some (CommandDataOptionValue.boolean value)) => Except.ok (some value)
  | Except.error e => Except.error e
  | _ => Except.ok none

/-- Embedding of get_user of src/interaction.rs. -/
def get_user (self : ApplicationCommandInteraction) (name : String) :
    Except String (Option (User × Option PartialMember)) :=
  match get_value self name CommandOptionType.user with
  | Except.ok (some (CommandDataOptionValue.user user member)) =>
    Except.ok (some (user, member))
  | Except.error e => Except.error e
  | _ => Except.ok none

/-- Embedding of get_channel of src/interaction.rs. -/
def get_channel (self : ApplicationCommandInteraction) (name : String) :
    Except String (Option PartialChannel) :=
  match get_value self name CommandOptionType.channel with
  | Except.ok (some (CommandDataOptionValue.channel value)) => Except.ok (some value)
  | Except.error e => Except.error e
  | _ => Except.ok none

/-- Embedding of get_role of src/interaction.rs. -/
def get_role (self : ApplicationCommandInteraction) (name : String) :
    Except String (Option Role) :=
  match get_value self name CommandOptionType.role with
  | Except.ok (some (CommandDataOptionValue.role value)) => Except.ok (some value)
  | Except.error e => Except.error e
  | _ => Except.ok none

/-- Embedding of get_number of src/interaction.rs. -/
def get_number (self : ApplicationCommandInteraction) (name : String) :
    Except String (Option F64) :=
  match get_value self name CommandOptionType.number with
  | Except.ok (some (CommandDataOptionValue.number value)) => Except.ok (some value)
  | Except.error e => Except.error e
  | _ => Except.ok none

/-- Embedding of get_attachment of src/interaction.rs. -/
def get_attachment (self : ApplicationCommandInteraction) (name : String) :
    Except String (Option Attachment) :=
  match get_value self name CommandOptionType.attachment with
  | Except.ok (some (CommandDataOptionValue.attachment value)) => Except.ok (some value)
  | Except.error e => Except.error e
  | _ => Except.ok none

/-- The effective options list as the specification words it: inspect the
first top-level option; a SubCommand contributes its children, a
SubCommandGroup the children of its own first child (none when the group has
no child), anything else leaves the top-level list in place. -/
def effectiveOptionsSpec (i : ApplicationCommandInteraction) :
    Option (List CommandDataOption) :=
  match i.data.options.head? with
  | some option =>
    match option.kind with
    | CommandOptionType.subCommand => some option.options
    | CommandOptionType.subCommandGroup =>
      Option.map CommandDataOption.options option.options.head?
    | _ => some i.data.options
  | none => some i.data.options

/-- Search one concrete options list the way get_value searches its hoisted
list: find the first option matching kind and name, then demand its resolved
value. -/
def findAndResolve (options : List CommandDataOption) (name : String)
    (kind : CommandOptionType) : Except String (Option CommandDataOptionValue) :=
  match options.find? (fun option => option.kind == kind && option.name == name) with
  | some found_option =>
    match found_option.resolved with
    | some value => Except.ok (some value)
    | none => Except.error "No resolved value exists"
  | none => Except.ok none

/-- The children of the first top-level SubCommandGroup, or the empty list
when no top-level option has that kind (the list get_subcommand appends). -/
def groupChildrenSpec (i : ApplicationCommandInteraction) :
    List CommandDataOption :=
  match i.data.options.find?
      (fun option => option.kind == CommandOptionType.subCommandGroup) with
  | some group => group.options
  | none => []

/-- A kind that carries a resolved value rather than child options. -/
def isLeafKind (kind : CommandOptionType) : Bool :=
  !(kind == CommandOptionType.subCommand || kind == CommandOptionType.subCommandGroup)

/-- The payload projection get_string applies to a get_value result. -/
def extractString (r : Except String (Option CommandDataOptionValue)) :
    Except String (Option String) :=
  match r with
  | Except.ok (some (CommandDataOptionValue.string value)) => Except.ok (some value)
  | Except.error e => Except.error e
  | _ => Except.ok none

/-- The payload projection get_integer applies to a get_value result. -/
def extractInteger (r : Except String (Option CommandDataOptionValue)) :
    Except String (Option Int) :=
  match r with
  | Except.ok (some (CommandDataOptionValue.integer value)) => Except.ok (some value)
  | Except.error e => Except.error e
  | _ => Except.ok none

/-- The payload projection get_bool applies to a get_value result. -/
def extractBoolean (r : Except String (Option CommandDataOptionValue)) :
    Except String (Option Bool) :=
  match r with
  | Except.ok (some (CommandDataOptionValue.boolean value)) => Except.ok (some value)
  | Except.error e => Except.error e
  | _ => Except.ok none

/-- The payload projection get_user applies to a get_value result. -/
def extractUser (r : Except String (Option CommandDataOptionValue)) :
    Except String (Option (User × Option PartialMember)) :=
  match r with
  | Except.ok (some (CommandDataOptionValue.user user member)) =>
    Except.ok (some (user, member))
  | Except.error e => Except.error e
  | _ => Except.ok none

/-- The payload projection get_channel applies to a get_value result. -/
def extractChannel (r : Except String (Option CommandDataOptionValue)) :
    Except String (Option PartialChannel) :=
  match r with
  | Except.ok (some (CommandDataOptionValue.channel value)) => Except.ok (some value)
  | Except.error e => Except.error e
  | _ => Except.ok none

/-- The payload projection get_role applies to a get_value result. -/
def extractRole (r : Except String (Option CommandDataOptionValue)) :
    Except String (Option Role) :=
  match r with
  | Except.ok (some (CommandDataOptionValue.role value)) => Except.ok (some value)
  | Except.error e => Except.error e
  | _ => Except.ok none

/-- The payload projection get_number applies to a get_value result. -/
def extractNumber (r : Except String (Option CommandDataOptionValue)) :
    Except String (Option F64) :=
  match r with
  | Except.ok (some (CommandDataOptionValue.number value)) => Except.ok (some value)
  | Except.error e => Except.error e
  | _ => Except.ok none

/-- The payload projection get_attachment applies to a get_value result. -/
def extractAttachment (r : Except String (Option CommandDataOptionValue)) :
    Except String (Option Attachment) :=
  match r with
  | Except.ok (some (CommandDataOptionValue.attachment value)) => Except.ok (some value)
  | Except.error e => Except.error e
  | _ => Except.ok none

/-- Model of serenity's CreateInteractionResponseData, the builder argument of
the reply helper; the source never inspects it, only forwards it. -/
structure CreateInteractionResponseData where
  content : String

/-- What a call to reply produces: the value returned to the caller and the
log lines emitted. -/
structure ReplyOutcome where
  result : Except String Unit
  log : List String

/-- Embedding of BetterResponse::reply of src/interaction.rs.  The outbound
create_interaction_response call of the wrapped library is an external effect,
so its outcome is a function supplied by the environment, applied to the
caller's builder; an Err outcome is logged with the source's message and
discarded, and Ok(()) is returned either way. -/
def reply
    (createInteractionResponse :
      (CreateInteractionResponseData → CreateInteractionResponseData) →
        Except String Unit)
    (replyFn : CreateInteractionResponseData → CreateInteractionResponseData) :
    ReplyOutcome :=
  match createInteractionResponse replyFn with
  | Except.error why =>
    { result := Except.ok ()
      log := ["Encountered an error while reponding to chat command:\n" ++ why] }
  | Except.ok _ => { result := Except.ok (), log := [] }

/-- The children of the create SubCommand of the first scenario: a String
option name=foo and an Integer option count=3. -/
def createChildren : List CommandDataOption :=
  [CommandDataOption.mk "name" CommandOptionType.string []
    (some (CommandDataOptionValue.string "foo")),
   CommandDataOption.mk "count" CommandOptionType.integer []
    (some (CommandDataOptionValue.integer 3))]

/-- The scenario interaction of the specification: one top-level SubCommand
named create with a String child name=foo and an Integer child count=3. -/
def scenarioCreate : ApplicationCommandInteraction :=
  { data :=
    { options :=
      [CommandDataOption.mk "create" CommandOptionType.subCommand
        createChildren none] } }

/-- The SubCommand ban holding a User child target, for the admin scenario. -/
def banOption (u : User) : CommandDataOption :=
  CommandDataOption.mk "ban" CommandOptionType.subCommand
    [CommandDataOption.mk "target" CommandOptionType.user []
      (some (CommandDataOptionValue.user u none))]
    none

/-- The SubCommandGroup admin holding the ban SubCommand. -/
def adminOption (u : User) : CommandDataOption :=
  CommandDataOption.mk "admin" CommandOptionType.subCommandGroup [banOption u] none

/-- The scenario interaction of the specification: one top-level
SubCommandGroup admin, whose child SubCommand ban holds a User target. -/
def scenarioAdmin (u : User) : ApplicationCommandInteraction :=
  { data := { options := [adminOption u] } }

/-- An interaction whose first top-level option is a SubCommandGroup with no
children, the shape on which the unwrap of get_value fails. -/
def emptyGroupInteraction : ApplicationCommandInteraction :=
  { data :=
    { options :=
      [CommandDataOption.mk "admin" CommandOptionType.subCommandGroup [] none] } }

/-- An interaction with two top-level SubCommandGroups; only the second group
holds a SubCommand. -/
def twoGroupsInteraction : ApplicationCommandInteraction :=
  { data :=
    { options :=
      [CommandDataOption.mk "g1" CommandOptionType.subCommandGroup
        [CommandDataOption.mk "sub1" CommandOptionType.subCommand [] none] none,
       CommandDataOption.mk "g2" CommandOptionType.subCommandGroup
        [CommandDataOption.mk "sub2" CommandOptionType.subCommand [] none] none] } }

/-- get_value computed over the effective options list of the specification:
whenever that list is defined, get_value is exactly findAndResolve on it. -/
theorem get_value_eq_findAndResolve (i : ApplicationCommandInteraction)
    (name : String) (kind : CommandOptionType) (opts : List CommandDataOption)
    (h : effectiveOptionsSpec i = some opts) :
    get_value i name kind = findAndResolve opts name kind := by
  obtain ⟨⟨os⟩⟩ := i
  cases os with
  | nil =>
    simp only [effectiveOptionsSpec, List.head?, Option.some.injEq] at h
    subst h
    rfl
  | cons o rest =>
    obtain ⟨n, k, children, r⟩ := o
    cases k
    case subCommand =>
      simp only [effectiveOptionsSpec, List.head?_cons, CommandDataOption.kind,
        CommandDataOption.options, Option.some.injEq] at h
      subst h
      rfl
    case subCommandGroup =>
      cases children with
      | nil =>
        simp [effectiveOptionsSpec, CommandDataOption.kind,
          CommandDataOption.options] at h
      | cons first rest2 =>
        simp only [effectiveOptionsSpec, List.head?_cons, CommandDataOption.kind,
          CommandDataOption.options, Option.map_some', Option.some.injEq] at h
        subst h
        rfl
    all_goals
      simp only [effectiveOptionsSpec, List.head?_cons, CommandDataOption.kind,
        Option.some.injEq] at h
      subst h
      rfl

/-- get_string is the string payload projection of get_value. -/
theorem get_string_eq (i : ApplicationCommandInteraction) (name : String) :
    get_string i name = extractString (get_value i name CommandOptionType.string) := rfl

/-- get_integer is the integer payload projection of get_value. -/
theorem get_integer_eq (i : ApplicationCommandInteraction) (name : String) :
    get_integer i name = extractInteger (get_value i name CommandOptionType.integer) := rfl

/-- get_bool is the boolean payload projection of get_value. -/
theorem get_bool_eq (i : ApplicationCommandInteraction) (name : String) :
    get_bool i name = extractBoolean (get_value i name CommandOptionType.boolean) := rfl

/-- get_user is the user payload projection of get_value. -/
theorem get_user_eq (i : ApplicationCommandInteraction) (name : String) :
    get_user i name = extractUser (get_value i name CommandOptionType.user) := rfl

/-- get_channel is the channel payload projection of get_value. -/
theorem get_channel_eq (i : ApplicationCommandInteraction) (name : String) :
    get_channel i name = extractChannel (get_value i name CommandOptionType.channel) := rfl

/-- get_role is the role payload projection of get_value. -/
theorem get_role_eq (i : ApplicationCommandInteraction) (name : String) :
    get_role i name = extractRole (get_value i name CommandOptionType.role) := rfl

/-- get_number is the number payload projection of get_value. -/
theorem get_number_eq (i : ApplicationCommandInteraction) (name : String) :
    get_number i name = extractNumber (get_value i name CommandOptionType.number) := rfl

/-- get_attachment is the attachment payload projection of get_value. -/
theorem get_attachment_eq (i : ApplicationCommandInteraction) (name : String) :
    get_attachment i name = extractAttachment (get_value i name CommandOptionType.attachment) := rfl

/-- findAndResolve yields an absent result when no option of the list matches
the requested kind and name. -/
theorem findAndResolve_eq_ok_none (opts : List CommandDataOption) (name : String)
    (kind : CommandOptionType)
    (h : ∀ o ∈ opts, ¬(o.kind = kind ∧ o.name = name)) :
    findAndResolve opts name kind = Except.ok none := by
  unfold findAndResolve
  have hf : opts.find? (fun option => option.kind == kind && option.name == name) = none := by
    rw [List.find?_eq_none]
    intro x hx
    simp only [Bool.and_eq_true, beq_iff_eq, not_and]
    intro h1 h2
    exact h x hx ⟨h1, h2⟩
  rw [hf]

/-- findAndResolve yields the resolved value of the first matching option. -/
theorem findAndResolve_of_found (opts : List CommandDataOption) (name : String)
    (kind : CommandOptionType) (o : CommandDataOption) (v : CommandDataOptionValue)
    (hf : opts.find? (fun option => option.kind == kind && option.name == name) = some o)
    (hr : o.resolved = some v) :
    findAndResolve opts name kind = Except.ok (some v) := by
  unfold findAndResolve
  simp only [hf, hr]

/-- findAndResolve hits the expect panic when the first matching option has no
resolved value. -/
theorem findAndResolve_of_found_none (opts : List CommandDataOption) (name : String)
    (kind : CommandOptionType) (o : CommandDataOption)
    (hf : opts.find? (fun option => option.kind == kind && option.name == name) = some o)
    (hr : o.resolved = none) :
    findAndResolve opts name kind = Except.error "No resolved value exists" := by
  unfold findAndResolve
  simp only [hf, hr]

/-- findAndResolve cannot panic when every leaf option of the list carries a
resolved value. -/
theorem findAndResolve_ok (opts : List CommandDataOption) (name : String)
    (kind : CommandOptionType)
    (hres : ∀ o ∈ opts, isLeafKind o.kind → (CommandDataOption.resolved o).isSome)
    (hleaf : isLeafKind kind = true) :
    ∃ w, findAndResolve opts name kind = Except.ok w := by
  unfold findAndResolve
  cases hf : opts.find? (fun option => option.kind == kind && option.name == name) with
  | none => exact ⟨none, rfl⟩
  | some o =>
    have hmem := List.mem_of_find?_eq_some hf
    have hp := List.find?_some hf
    simp only [Bool.and_eq_true, beq_iff_eq] at hp
    have hs : (CommandDataOption.resolved o).isSome := by
      refine hres o hmem ?_
      rw [hp.1]
      exact hleaf
    cases hr : o.resolved with
    | none => rw [hr] at hs; simp at hs
    | some v => simp only [hr]; exact ⟨some v, rfl⟩

/-- get_value hits the unwrap panic when the first top-level option is a
SubCommandGroup without children. -/
theorem get_value_abort (i : ApplicationCommandInteraction) (o : CommandDataOption)
    (name : String) (kind : CommandOptionType)
    (h1 : i.data.options.head? = some o)
    (h2 : o.kind = CommandOptionType.subCommandGroup)
    (h3 : o.options = []) :
    get_value i name kind = Except.error "called Option::unwrap() on a None value" := by
  unfold get_value
  simp only [h1, h2, h3, List.head?_nil]

/-- extractString yields absent on any non-string payload. -/
theorem extractString_mismatch (v : CommandDataOptionValue)
    (h : ∀ s, v ≠ CommandDataOptionValue.string s) :
    extractString (Except.ok (some v)) = Except.ok none := by
  cases v
  case string s => exact absurd rfl (h s)
  all_goals rfl

/-- extractInteger yields absent on any non-integer payload. -/
theorem extractInteger_mismatch (v : CommandDataOptionValue)
    (h : ∀ n, v ≠ CommandDataOptionValue.integer n) :
    extractInteger (Except.ok (some v)) = Except.ok none := by
  cases v
  case integer n => exact absurd rfl (h n)
  all_goals rfl

/-- extractBoolean yields absent on any non-boolean payload. -/
theorem extractBoolean_mismatch (v : CommandDataOptionValue)
    (h : ∀ b, v ≠ CommandDataOptionValue.boolean b) :
    extractBoolean (Except.ok (some v)) = Except.ok none := by
  cases v
  case boolean b => exact absurd rfl (h b)
  all_goals rfl

/-- extractUser yields absent on any non-user payload. -/
theorem extractUser_mismatch (v : CommandDataOptionValue)
    (h : ∀ u m, v ≠ CommandDataOptionValue.user u m) :
    extractUser (Except.ok (some v)) = Except.ok none := by
  cases v
  case user u m => exact absurd rfl (h u m)
  all_goals rfl

/-- extractChannel yields absent on any non-channel payload. -/
theorem extractChannel_mismatch (v : CommandDataOptionValue)
    (h : ∀ c, v ≠ CommandDataOptionValue.channel c) :
    extractChannel (Except.ok (some v)) = Except.ok none := by
  cases v
  case channel c => exact absurd rfl (h c)
  all_goals rfl

/-- extractRole yields absent on any non-role payload. -/
theorem extractRole_mismatch (v : CommandDataOptionValue)
    (h : ∀ r, v ≠ CommandDataOptionValue.role r) :
    extractRole (Except.ok (some v)) = Except.ok none := by
  cases v
  case role r => exact absurd rfl (h r)
  all_goals rfl

/-- extractNumber yields absent on any non-number payload. -/
theorem extractNumber_mismatch (v : CommandDataOptionValue)
    (h : ∀ n, v ≠ CommandDataOptionValue.number n) :
    extractNumber (Except.ok (some v)) = Except.ok none := by
  cases v
  case number n => exact absurd rfl (h n)
  all_goals rfl

/-- extractAttachment yields absent on any non-attachment payload. -/
theorem extractAttachment_mismatch (v : CommandDataOptionValue)
    (h : ∀ a, v ≠ CommandDataOptionValue.attachment a) :
    extractAttachment (Except.ok (some v)) = Except.ok none := by
  cases v
  case attachment a => exact absurd rfl (h a)
  all_goals rfl

/-- extractString returns through Except.ok on any ok input. -/
theorem extractString_ok (w : Option CommandDataOptionValue) :
    ∃ r, extractString (Except.ok w) = Except.ok r := by
  cases w with
  | none => exact ⟨none, rfl⟩
  | some v => cases v <;> exact ⟨_, rfl⟩

/-- extractInteger returns through Except.ok on any ok input. -/
theorem extractInteger_ok (w : Option CommandDataOptionValue) :
    ∃ r, extractInteger (Except.ok w) = Except.ok r := by
  cases w with
  | none => exact ⟨none, rfl⟩
  | some v => cases v <;> exact ⟨_, rfl⟩

/-- extractBoolean returns through Except.ok on any ok input. -/
theorem extractBoolean_ok (w : Option CommandDataOptionValue) :
    ∃ r, extractBoolean (Except.ok w) = Except.ok r := by
  cases w with
  | none => exact ⟨none, rfl⟩
  | some v => cases v <;> exact ⟨_, rfl⟩

/-- extractUser returns through Except.ok on any ok input. -/
theorem extractUser_ok (w : Option CommandDataOptionValue) :
    ∃ r, extractUser (Except.ok w) = Except.ok r := by
  cases w with
  | none => exact ⟨none, rfl⟩
  | some v => cases v <;> exact ⟨_, rfl⟩

/-- extractChannel returns through Except.ok on any ok input. -/
theorem extractChannel_ok (w : Option CommandDataOptionValue) :
    ∃ r, extractChannel (Except.ok w) = Except.ok r := by
  cases w with
  | none => exact ⟨none, rfl⟩
  | some v => cases v <;> exact ⟨_, rfl⟩

/-- extractRole returns through Except.ok on any ok input. -/
theorem extractRole_ok (w : Option CommandDataOptionValue) :
    ∃ r, extractRole (Except.ok w) = Except.ok r := by
  cases w with
  | none => exact ⟨none, rfl⟩
  | some v => cases v <;> exact ⟨_, rfl⟩

/-- extractNumber returns through Except.ok on any ok input. -/
theorem extractNumber_ok (w : Option CommandDataOptionValue) :
    ∃ r, extractNumber (Except.ok w) = Except.ok r := by
  cases w with
  | none => exact ⟨none, rfl⟩
  | some v => cases v <;> exact ⟨_, rfl⟩

/-- extractAttachment returns through Except.ok on any ok input. -/
theorem extractAttachment_ok (w : Option CommandDataOptionValue) :
    ∃ r, extractAttachment (Except.ok w) = Except.ok r := by
  cases w with
  | none => exact ⟨none, rfl⟩
  | some v => cases v <;> exact ⟨_, rfl⟩

/-- C1: whenever the effective options list determined by the first top-level
option is defined (SubCommand: its children; SubCommandGroup: the children of
the group's first child; otherwise or empty top level: the top-level options),
get_value and every named-lookup accessor search exactly that list. -/
theorem effective_options_determine_named_lookups
    (i : ApplicationCommandInteraction) (name : String) (kind : CommandOptionType)
    (opts : List CommandDataOption) (h : effectiveOptionsSpec i = some opts) :
    get_value i name kind = findAndResolve opts name kind
    ∧ get_string i name
        = extractString (findAndResolve opts name CommandOptionType.string)
    ∧ get_integer i name
        = extractInteger (findAndResolve opts name CommandOptionType.integer)
    ∧ get_bool i name
        = extractBoolean (findAndResolve opts name CommandOptionType.boolean)
    ∧ get_user i name
        = extractUser (findAndResolve opts name CommandOptionType.user)
    ∧ get_channel i name
        = extractChannel (findAndResolve opts name CommandOptionType.channel)
    ∧ get_role i name
        = extractRole (findAndResolve opts name CommandOptionType.role)
    ∧ get_number i name
        = extractNumber (findAndResolve opts name CommandOptionType.number)
    ∧ get_attachment i name
        = extractAttachment (findAndResolve opts name CommandOptionType.attachment) := by
  refine ⟨get_value_eq_findAndResolve i name kind opts h,
    ?_, ?_, ?_, ?_, ?_, ?_, ?_, ?_⟩
  · rw [get_string_eq, get_value_eq_findAndResolve i name _ opts h]
  · rw [get_integer_eq, get_value_eq_findAndResolve i name _ opts h]
  · rw [get_bool_eq, get_value_eq_findAndResolve i name _ opts h]
  · rw [get_user_eq, get_value_eq_findAndResolve i name _ opts h]
  · rw [get_channel_eq, get_value_eq_findAndResolve i name _ opts h]
  · rw [get_role_eq, get_value_eq_findAndResolve i name _ opts h]
  · rw [get_number_eq, get_value_eq_findAndResolve i name _ opts h]
  · rw [get_attachment_eq, get_value_eq_findAndResolve i name _ opts h]

/-- Witness for C1: at the create scenario, get_string searches the children
of the first top-level SubCommand. -/
theorem effective_options_determine_named_lookups_witness :
    get_string scenarioCreate "name"
      = extractString (findAndResolve createChildren "name" CommandOptionType.string) :=
  (effective_options_determine_named_lookups scenarioCreate "name"
    CommandOptionType.string createChildren rfl).2.1

/-- C2: get_subcommand returns the first SubCommand of the concatenation of
the top-level options with the children of the first top-level
SubCommandGroup; a top-level SubCommand is therefore found first, and the
result is absent when that concatenation holds no SubCommand. -/
theorem get_subcommand_concat_search (i : ApplicationCommandInteraction) :
    get_subcommand i
      = (i.data.options ++ groupChildrenSpec i).find?
          (fun option => option.kind == CommandOptionType.subCommand)
    ∧ ((∃ o ∈ i.data.options, o.kind = CommandOptionType.subCommand) →
        get_subcommand i
          = i.data.options.find?
              (fun option => option.kind == CommandOptionType.subCommand))
    ∧ ((i.data.options ++ groupChildrenSpec i).find?
          (fun option => option.kind == CommandOptionType.subCommand) = none →
        get_subcommand i = none) := by
  have h1 : get_subcommand i
      = (i.data.options ++ groupChildrenSpec i).find?
          (fun option => option.kind == CommandOptionType.subCommand) := by
    unfold get_subcommand groupChildrenSpec
    cases hg : i.data.options.find?
        (fun option => option.kind == CommandOptionType.subCommandGroup) with
    | none => simp only [hg, List.append_nil]
    | some group => simp only [hg]
  refine ⟨h1, ?_, ?_⟩
  · rintro ⟨o, ho, hk⟩
    rw [h1, List.find?_append]
    have hs : (i.data.options.find?
        (fun option => option.kind == CommandOptionType.subCommand)).isSome :=
      List.find?_isSome.mpr ⟨o, ho, by simp [beq_iff_eq, hk]⟩
    obtain ⟨x, hx⟩ := Option.isSome_iff_exists.mp hs
    rw [hx]
    rfl
  · intro hn
    rw [h1, hn]

/-- Witness for C2: the create scenario has a top-level SubCommand, so
get_subcommand searches the top-level options first. -/
theorem get_subcommand_concat_search_witness :
    get_subcommand scenarioCreate
      = scenarioCreate.data.options.find?
          (fun option => option.kind == CommandOptionType.subCommand) :=
  (get_subcommand_concat_search scenarioCreate).2.1
    ⟨CommandDataOption.mk "create" CommandOptionType.subCommand createChildren none,
      List.mem_cons_self _ _, rfl⟩

/-- C3: whenever the effective options list is defined, every named-lookup
accessor returns absent, not an error, both when no option of that list
carries the requested name together with the requested kind and when the
found option's resolved payload tag differs from the requested kind's shape. -/
theorem named_lookup_miss_or_mismatch_absent
    (i : ApplicationCommandInteraction) (name : String)
    (opts : List CommandDataOption) (h : effectiveOptionsSpec i = some opts) :
    (∀ kind : CommandOptionType,
      (∀ o ∈ opts, ¬(o.kind = kind ∧ o.name = name)) →
        get_value i name kind = Except.ok none)
    ∧ ((∀ o ∈ opts, ¬(o.kind = CommandOptionType.string ∧ o.name = name)) →
        get_string i name = Except.ok none)
    ∧ ((∀ o ∈ opts, ¬(o.kind = CommandOptionType.integer ∧ o.name = name)) →
        get_integer i name = Except.ok none)
    ∧ ((∀ o ∈ opts, ¬(o.kind = CommandOptionType.boolean ∧ o.name = name)) →
        get_bool i name = Except.ok none)
    ∧ ((∀ o ∈ opts, ¬(o.kind = CommandOptionType.user ∧ o.name = name)) →
        get_user i name = Except.ok none)
    ∧ ((∀ o ∈ opts, ¬(o.kind = CommandOptionType.channel ∧ o.name = name)) →
        get_channel i name = Except.ok none)
    ∧ ((∀ o ∈ opts, ¬(o.kind = CommandOptionType.role ∧ o.name = name)) →
        get_role i name = Except.ok none)
    ∧ ((∀ o ∈ opts, ¬(o.kind = CommandOptionType.number ∧ o.name = name)) →
        get_number i name = Except.ok none)
    ∧ ((∀ o ∈ opts, ¬(o.kind = CommandOptionType.attachment ∧ o.name = name)) →
        get_attachment i name = Except.ok none)
    ∧ (∀ o v,
        opts.find? (fun option =>
          option.kind == CommandOptionType.string && option.name == name) = some o →
        CommandDataOption.resolved o = some v →
        (∀ s, v ≠ CommandDataOptionValue.string s) →
        get_string i name = Except.ok none)
    ∧ (∀ o v,
        opts.find? (fun option =>
          option.kind == CommandOptionType.integer && option.name == name) = some o →
        CommandDataOption.resolved o = some v →
        (∀ n, v ≠ CommandDataOptionValue.integer n) →
        get_integer i name = Except.ok none)
    ∧ (∀ o v,
        opts.find? (fun option =>
          option.kind == CommandOptionType.boolean && option.name == name) = some o →
        CommandDataOption.resolved o = some v →
        (∀ b, v ≠ CommandDataOptionValue.boolean b) →
        get_bool i name = Except.ok none)
    ∧ (∀ o v,
        opts.find? (fun option =>
          option.kind == CommandOptionType.user && option.name == name) = some o →
        CommandDataOption.resolved o = some v →
        (∀ u m, v ≠ CommandDataOptionValue.user u m) →
        get_user i name = Except.ok none)
    ∧ (∀ o v,
        opts.find? (fun option =>
          option.kind == CommandOptionType.channel && option.name == name) = some o →
        CommandDataOption.resolved o = some v →
        (∀ c, v ≠ CommandDataOptionValue.channel c) →
        get_channel i name = Except.ok none)
    ∧ (∀ o v,
        opts.find? (fun option =>
          option.kind == CommandOptionType.role && option.name == name) = some o →
        CommandDataOption.resolved o = some v →
        (∀ r, v ≠ CommandDataOptionValue.role r) →
        get_role i name = Except.ok none)
    ∧ (∀ o v,
        opts.find? (fun option =>
          option.kind == CommandOptionType.number && option.name == name) = some o →
        CommandDataOption.resolved o = some v →
        (∀ n, v ≠ CommandDataOptionValue.number n) →
        get_number i name = Except.ok none)
    ∧ (∀ o v,
        opts.find? (fun option =>
          option.kind == CommandOptionType.attachment && option.name == name) = some o →
        CommandDataOption.resolved o = some v →
        (∀ a, v ≠ CommandDataOptionValue.attachment a) →
        get_attachment i name = Except.ok none) := by
  refine ⟨?_, ?_, ?_, ?_, ?_, ?_, ?_, ?_, ?_, ?_, ?_, ?_, ?_, ?_, ?_, ?_, ?_⟩
  · intro kind hm
    rw [get_value_eq_findAndResolve i name kind opts h,
      findAndResolve_eq_ok_none opts name kind hm]
  · intro hm
    rw [get_string_eq, get_value_eq_findAndResolve i name _ opts h,
      findAndResolve_eq_ok_none opts name _ hm]
    rfl
  · intro hm
    rw [get_integer_eq, get_value_eq_findAndResolve i name _ opts h,
      findAndResolve_eq_ok_none opts name _ hm]
    rfl
  · intro hm
    rw [get_bool_eq, get_value_eq_findAndResolve i name _ opts h,
      findAndResolve_eq_ok_none opts name _ hm]
    rfl
  · intro hm
    rw [get_user_eq, get_value_eq_findAndResolve i name _ opts h,
      findAndResolve_eq_ok_none opts name _ hm]
    rfl
  · intro hm
    rw [get_channel_eq, get_value_eq_findAndResolve i name _ opts h,
      findAndResolve_eq_ok_none opts name _ hm]
    rfl
  · intro hm
    rw [get_role_eq, get_value_eq_findAndResolve i name _ opts h,
      findAndResolve_eq_ok_none opts name _ hm]
    rfl
  · intro hm
    rw [get_number_eq, get_value_eq_findAndResolve i name _ opts h,
      findAndResolve_eq_ok_none opts name _ hm]
    rfl
  · intro hm
    rw [get_attachment_eq, get_value_eq_findAndResolve i name _ opts h,
      findAndResolve_eq_ok_none opts name _ hm]
    rfl
  · intro o v hf hr hv
    rw [get_string_eq, get_value_eq_findAndResolve i name _ opts h,
      findAndResolve_of_found opts name _ o v hf hr]
    exact extractString_mismatch v hv
  · intro o v hf hr hv
    rw [get_integer_eq, get_value_eq_findAndResolve i name _ opts h,
      findAndResolve_of_found opts name _ o v hf hr]
    exact extractInteger_mismatch v hv
  · intro o v hf hr hv
    rw [get_bool_eq, get_value_eq_findAndResolve i name _ opts h,
      findAndResolve_of_found opts name _ o v hf hr]
    exact extractBoolean_mismatch v hv
  · intro o v hf hr hv
    rw [get_user_eq, get_value_eq_findAndResolve i name _ opts h,
      findAndResolve_of_found opts name _ o v hf hr]
    exact extractUser_mismatch v hv
  · intro o v hf hr hv
    rw [get_channel_eq, get_value_eq_findAndResolve i name _ opts h,
      findAndResolve_of_found opts name _ o v hf hr]
    exact extractChannel_mismatch v hv
  · intro o v hf hr hv
    rw [get_role_eq, get_value_eq_findAndResolve i name _ opts h,
      findAndResolve_of_found opts name _ o v hf hr]
    exact extractRole_mismatch v hv
  · intro o v hf hr hv
    rw [get_number_eq, get_value_eq_findAndResolve i name _ opts h,
      findAndResolve_of_found opts name _ o v hf hr]
    exact extractNumber_mismatch v hv
  · intro o v hf hr hv
    rw [get_attachment_eq, get_value_eq_findAndResolve i name _ opts h,
      findAndResolve_of_found opts name _ o v hf hr]
    exact extractAttachment_mismatch v hv

/-- Witness for C3: in the create scenario, looking up an absent name yields
absent. -/
theorem named_lookup_miss_or_mismatch_absent_witness :
    get_string scenarioCreate "missing" = Except.ok none :=
  (named_lookup_miss_or_mismatch_absent scenarioCreate "missing"
    createChildren rfl).2.1 (by decide)

/-- C4: whenever the effective options list is defined and every leaf option
in it carries a resolved value, get_value and every named-lookup accessor
return through the normal path; and when the found option lacks a resolved
value, the extraction aborts with the expect panic instead of returning a
typed absence. -/
theorem resolved_value_abort_semantics
    (i : ApplicationCommandInteraction) (name : String)
    (opts : List CommandDataOption) (h : effectiveOptionsSpec i = some opts) :
    ((∀ o ∈ opts, isLeafKind o.kind → (CommandDataOption.resolved o).isSome) →
      (∀ kind, isLeafKind kind = true → ∃ w, get_value i name kind = Except.ok w)
      ∧ (∃ r, get_string i name = Except.ok r)
      ∧ (∃ r, get_integer i name = Except.ok r)
      ∧ (∃ r, get_bool i name = Except.ok r)
      ∧ (∃ r, get_user i name = Except.ok r)
      ∧ (∃ r, get_channel i name = Except.ok r)
      ∧ (∃ r, get_role i name = Except.ok r)
      ∧ (∃ r, get_number i name = Except.ok r)
      ∧ (∃ r, get_attachment i name = Except.ok r))
    ∧ (∀ kind o,
        opts.find? (fun option => option.kind == kind && option.name == name) = some o →
        CommandDataOption.resolved o = none →
        get_value i name kind = Except.error "No resolved value exists")
    ∧ (∀ o,
        opts.find? (fun option =>
          option.kind == CommandOptionType.string && option.name == name) = some o →
        CommandDataOption.resolved o = none →
        get_string i name = Except.error "No resolved value exists")
    ∧ (∀ o,
        opts.find? (fun option =>
          option.kind == CommandOptionType.integer && option.name == name) = some o →
        CommandDataOption.resolved o = none →
        get_integer i name = Except.error "No resolved value exists")
    ∧ (∀ o,
        opts.find? (fun option =>
          option.kind == CommandOptionType.boolean && option.name == name) = some o →
        CommandDataOption.resolved o = none →
        get_bool i name = Except.error "No resolved value exists")
    ∧ (∀ o,
        opts.find? (fun option =>
          option.kind == CommandOptionType.user && option.name == name) = some o →
        CommandDataOption.resolved o = none →
        get_user i name = Except.error "No resolved value exists")
    ∧ (∀ o,
        opts.find? (fun option =>
          option.kind == CommandOptionType.channel && option.name == name) = some o →
        CommandDataOption.resolved o = none →
        get_channel i name = Except.error "No resolved value exists")
    ∧ (∀ o,
        opts.find? (fun option =>
          option.kind == CommandOptionType.role && option.name == name) = some o →
        CommandDataOption.resolved o = none →
        get_role i name = Except.error "No resolved value exists")
    ∧ (∀ o,
        opts.find? (fun option =>
          option.kind == CommandOptionType.number && option.name == name) = some o →
        CommandDataOption.resolved o = none →
        get_number i name = Except.error "No resolved value exists")
    ∧ (∀ o,
        opts.find? (fun option =>
          option.kind == CommandOptionType.attachment && option.name == name) = some o →
        CommandDataOption.resolved o = none →
        get_attachment i name = Except.error "No resolved value exists") := by
  refine ⟨fun hres => ⟨?_, ?_, ?_, ?_, ?_, ?_, ?_, ?_, ?_⟩,
    ?_, ?_, ?_, ?_, ?_, ?_, ?_, ?_, ?_⟩
  · intro kind hleaf
    obtain ⟨w, hw⟩ := findAndResolve_ok opts name kind hres hleaf
    exact ⟨w, by rw [get_value_eq_findAndResolve i name kind opts h]; exact hw⟩
  · obtain ⟨w, hw⟩ := findAndResolve_ok opts name CommandOptionType.string hres rfl
    obtain ⟨r, hr⟩ := extractString_ok w
    refine ⟨r, ?_⟩
    rw [get_string_eq, get_value_eq_findAndResolve i name _ opts h, hw]
    exact hr
  · obtain ⟨w, hw⟩ := findAndResolve_ok opts name CommandOptionType.integer hres rfl
    obtain ⟨r, hr⟩ := extractInteger_ok w
    refine ⟨r, ?_⟩
    rw [get_integer_eq, get_value_eq_findAndResolve i name _ opts h, hw]
    exact hr
  · obtain ⟨w, hw⟩ := findAndResolve_ok opts name CommandOptionType.boolean hres rfl
    obtain ⟨r, hr⟩ := extractBoolean_ok w
    refine ⟨r, ?_⟩
    rw [get_bool_eq, get_value_eq_findAndResolve i name _ opts h, hw]
    exact hr
  · obtain ⟨w, hw⟩ := findAndResolve_ok opts name CommandOptionType.user hres rfl
    obtain ⟨r, hr⟩ := extractUser_ok w
    refine ⟨r, ?_⟩
    rw [get_user_eq, get_value_eq_findAndResolve i name _ opts h, hw]
    exact hr
  · obtain ⟨w, hw⟩ := findAndResolve_ok opts name CommandOptionType.channel hres rfl
    obtain ⟨r, hr⟩ := extractChannel_ok w
    refine ⟨r, ?_⟩
    rw [get_channel_eq, get_value_eq_findAndResolve i name _ opts h, hw]
    exact hr
  · obtain ⟨w, hw⟩ := findAndResolve_ok opts name CommandOptionType.role hres rfl
    obtain ⟨r, hr⟩ := extractRole_ok w
    refine ⟨r, ?_⟩
    rw [get_role_eq, get_value_eq_findAndResolve i name _ opts h, hw]
    exact hr
  · obtain ⟨w, hw⟩ := findAndResolve_ok opts name CommandOptionType.number hres rfl
    obtain ⟨r, hr⟩ := extractNumber_ok w
    refine ⟨r, ?_⟩
    rw [get_number_eq, get_value_eq_findAndResolve i name _ opts h, hw]
    exact hr
  · obtain ⟨w, hw⟩ := findAndResolve_ok opts name CommandOptionType.attachment hres rfl
    obtain ⟨r, hr⟩ := extractAttachment_ok w
    refine ⟨r, ?_⟩
    rw [get_attachment_eq, get_value_eq_findAndResolve i name _ opts h, hw]
    exact hr
  · intro kind o hf hr
    rw [get_value_eq_findAndResolve i name kind opts h,
      findAndResolve_of_found_none opts name kind o hf hr]
  · intro o hf hr
    rw [get_string_eq, get_value_eq_findAndResolve i name _ opts h,
      findAndResolve_of_found_none opts name _ o hf hr]
    rfl
  · intro o hf hr
    rw [get_integer_eq, get_value_eq_findAndResolve i name _ opts h,
      findAndResolve_of_found_none opts name _ o hf hr]
    rfl
  · intro o hf hr
    rw [get_bool_eq, get_value_eq_findAndResolve i name _ opts h,
      findAndResolve_of_found_none opts name _ o hf hr]
    rfl
  · intro o hf hr
    rw [get_user_eq, get_value_eq_findAndResolve i name _ opts h,
      findAndResolve_of_found_none opts name _ o hf hr]
    rfl
  · intro o hf hr
    rw [get_channel_eq, get_value_eq_findAndResolve i name _ opts h,
      findAndResolve_of_found_none opts name _ o hf hr]
    rfl
  · intro o hf hr
    rw [get_role_eq, get_value_eq_findAndResolve i name _ opts h,
      findAndResolve_of_found_none opts name _ o hf hr]
    rfl
  · intro o hf hr
    rw [get_number_eq, get_value_eq_findAndResolve i name _ opts h,
      findAndResolve_of_found_none opts name _ o hf hr]
    rfl
  · intro o hf hr
    rw [get_attachment_eq, get_value_eq_findAndResolve i name _ opts h,
      findAndResolve_of_found_none opts name _ o hf hr]
    rfl

/-- Witness for C4: in the create scenario every leaf child is resolved, so
get_string returns through the normal path. -/
theorem resolved_value_abort_semantics_witness :
    ∃ r, get_string scenarioCreate "name" = Except.ok r :=
  ((resolved_value_abort_semantics scenarioCreate "name"
    createChildren rfl).1 (by decide)).2.1

/-- C5: get_subcommand_group returns the first top-level option of kind
SubCommandGroup, and absent when no top-level option has that kind, whatever
the kinds of nested options. -/
theorem get_subcommand_group_first_top_level (i : ApplicationCommandInteraction) :
    (∀ g, get_subcommand_group i = some g →
      CommandDataOption.kind g = CommandOptionType.subCommandGroup ∧
      ∃ pre post, i.data.options = pre ++ g :: post ∧
        ∀ o ∈ pre, CommandDataOption.kind o ≠ CommandOptionType.subCommandGroup)
    ∧ ((∃ o ∈ i.data.options, o.kind = CommandOptionType.subCommandGroup) →
        ∃ g, get_subcommand_group i = some g)
    ∧ ((∀ o ∈ i.data.options, o.kind ≠ CommandOptionType.subCommandGroup) →
        get_subcommand_group i = none) := by
  refine ⟨?_, ?_, ?_⟩
  · intro g hg
    unfold get_subcommand_group at hg
    rw [List.find?_eq_some] at hg
    obtain ⟨hp, as, bs, heq, hall⟩ := hg
    refine ⟨by simpa [beq_iff_eq] using hp, as, bs, heq, ?_⟩
    intro o ho
    simpa using hall o ho
  · rintro ⟨o, ho, hk⟩
    exact Option.isSome_iff_exists.mp
      (List.find?_isSome.mpr ⟨o, ho, by simp [beq_iff_eq, hk]⟩)
  · intro hall
    unfold get_subcommand_group
    rw [List.find?_eq_none]
    intro x hx
    simp only [beq_iff_eq]
    exact hall x hx

/-- Witness for C5: in the admin scenario the admin group is returned and is
the first top-level SubCommandGroup. -/
theorem get_subcommand_group_first_top_level_witness :
    CommandDataOption.kind (adminOption (User.mk 0)) = CommandOptionType.subCommandGroup ∧
    ∃ pre post, (scenarioAdmin (User.mk 0)).data.options
        = pre ++ adminOption (User.mk 0) :: post ∧
      ∀ o ∈ pre, CommandDataOption.kind o ≠ CommandOptionType.subCommandGroup :=
  (get_subcommand_group_first_top_level (scenarioAdmin (User.mk 0))).1
    (adminOption (User.mk 0)) rfl

/-- C6: in the create scenario, get_string finds name=foo, get_integer finds
count=3, get_bool on count is absent by tag mismatch, and get_string on an
absent name is absent. -/
theorem scenario_create_lookups :
    get_string scenarioCreate "name" = Except.ok (some "foo")
    ∧ get_integer scenarioCreate "count" = Except.ok (some 3)
    ∧ get_bool scenarioCreate "count" = Except.ok none
    ∧ get_string scenarioCreate "missing" = Except.ok none :=
  ⟨rfl, rfl, rfl, rfl⟩

/-- C7: in the admin scenario, get_user finds the target pair, the admin
group is the subcommand group, and ban is the subcommand. -/
theorem scenario_admin_lookups (u : User) :
    get_user (scenarioAdmin u) "target" = Except.ok (some (u, none))
    ∧ get_subcommand_group (scenarioAdmin u) = some (adminOption u)
    ∧ get_subcommand (scenarioAdmin u) = some (banOption u) :=
  ⟨rfl, rfl, rfl⟩

/-- Witness for C7 at a concrete user. -/
theorem scenario_admin_lookups_witness :
    get_user (scenarioAdmin (User.mk 7)) "target"
      = Except.ok (some (User.mk 7, none)) :=
  (scenario_admin_lookups (User.mk 7)).1

/-- C8: reply returns success to its caller whatever the outcome of the
underlying create-interaction-response call; on failure the error is logged
with the source's message and swallowed. -/
theorem reply_swallows_errors
    (createInteractionResponse :
      (CreateInteractionResponseData → CreateInteractionResponseData) →
        Except String Unit)
    (replyFn : CreateInteractionResponseData → CreateInteractionResponseData) :
    (reply createInteractionResponse replyFn).result = Except.ok ()
    ∧ (∀ why, createInteractionResponse replyFn = Except.error why →
        (reply createInteractionResponse replyFn).log
          = ["Encountered an error while reponding to chat command:\n" ++ why]) := by
  constructor
  · unfold reply
    cases createInteractionResponse replyFn <;> rfl
  · intro why hw
    unfold reply
    rw [hw]

/-- Witness for C8 at a failing underlying call. -/
theorem reply_swallows_errors_witness :
    (reply (fun _ => Except.error "boom") id).result = Except.ok ()
    ∧ (reply (fun _ => Except.error "boom") id).log
        = ["Encountered an error while reponding to chat command:\n" ++ "boom"] :=
  ⟨(reply_swallows_errors (fun _ => Except.error "boom") id).1,
    (reply_swallows_errors (fun _ => Except.error "boom") id).2 "boom" rfl⟩

/-- C9: when the first top-level option is a SubCommandGroup with no
children, every named-lookup accessor aborts with the unwrap panic for every
requested name instead of returning absent. -/
theorem empty_group_aborts_named_lookups
    (i : ApplicationCommandInteraction) (o : CommandDataOption)
    (h1 : i.data.options.head? = some o)
    (h2 : CommandDataOption.kind o = CommandOptionType.subCommandGroup)
    (h3 : CommandDataOption.options o = []) (name : String) :
    get_string i name = Except.error "called Option::unwrap() on a None value"
    ∧ get_integer i name = Except.error "called Option::unwrap() on a None value"
    ∧ get_bool i name = Except.error "called Option::unwrap() on a None value"
    ∧ get_user i name = Except.error "called Option::unwrap() on a None value"
    ∧ get_channel i name = Except.error "called Option::unwrap() on a None value"
    ∧ get_role i name = Except.error "called Option::unwrap() on a None value"
    ∧ get_number i name = Except.error "called Option::unwrap() on a None value"
    ∧ get_attachment i name
        = Except.error "called Option::unwrap() on a None value" := by
  refine ⟨?_, ?_, ?_, ?_, ?_, ?_, ?_, ?_⟩
  · rw [get_string_eq, get_value_abort i o name _ h1 h2 h3]
    rfl
  · rw [get_integer_eq, get_value_abort i o name _ h1 h2 h3]
    rfl
  · rw [get_bool_eq, get_value_abort i o name _ h1 h2 h3]
    rfl
  · rw [get_user_eq, get_value_abort i o name _ h1 h2 h3]
    rfl
  · rw [get_channel_eq, get_value_abort i o name _ h1 h2 h3]
    rfl
  · rw [get_role_eq, get_value_abort i o name _ h1 h2 h3]
    rfl
  · rw [get_number_eq, get_value_abort i o name _ h1 h2 h3]
    rfl
  · rw [get_attachment_eq, get_value_abort i o name _ h1 h2 h3]
    rfl

/-- Witness for C9 at a concrete empty-group interaction. -/
theorem empty_group_aborts_named_lookups_witness :
    get_string emptyGroupInteraction "x"
      = Except.error "called Option::unwrap() on a None value" :=
  (empty_group_aborts_named_lookups emptyGroupInteraction
    (CommandDataOption.mk "admin" CommandOptionType.subCommandGroup [] none)
    rfl rfl rfl "x").1

/-- C10: with at least two top-level SubCommandGroups, get_subcommand appends
only the children of the first group before searching, so a SubCommand living
only in a later group is never returned, and the result is absent when the
searched concatenation holds no SubCommand. -/
theorem second_group_children_ignored (i : ApplicationCommandInteraction)
    (h2 : 2 ≤ (i.data.options.filter
      (fun option => option.kind == CommandOptionType.subCommandGroup)).length) :
    ∃ g, i.data.options.find?
        (fun option => option.kind == CommandOptionType.subCommandGroup) = some g
      ∧ get_subcommand i
          = (i.data.options ++ CommandDataOption.options g).find?
              (fun option => option.kind == CommandOptionType.subCommand)
      ∧ (∀ o, get_subcommand i = some o →
          o ∈ i.data.options ∨ o ∈ CommandDataOption.options g)
      ∧ ((i.data.options ++ CommandDataOption.options g).find?
            (fun option => option.kind == CommandOptionType.subCommand) = none →
          get_subcommand i = none) := by
  have hpos : 0 < (i.data.options.filter
      (fun option => option.kind == CommandOptionType.subCommandGroup)).length := by
    omega
  obtain ⟨x, hx⟩ := List.exists_mem_of_length_pos hpos
  have hx2 := List.mem_filter.mp hx
  have hs : (i.data.options.find?
      (fun option => option.kind == CommandOptionType.subCommandGroup)).isSome :=
    List.find?_isSome.mpr ⟨x, hx2.1, hx2.2⟩
  obtain ⟨g, hg⟩ := Option.isSome_iff_exists.mp hs
  have heq : get_subcommand i
      = (i.data.options ++ CommandDataOption.options g).find?
          (fun option => option.kind == CommandOptionType.subCommand) := by
    unfold get_subcommand
    simp only [hg]
  refine ⟨g, hg, heq, ?_, ?_⟩
  · intro o ho
    rw [heq] at ho
    exact List.mem_append.mp (List.mem_of_find?_eq_some ho)
  · intro hn
    rw [heq, hn]

/-- Witness for C10 at an interaction with two top-level groups. -/
theorem second_group_children_ignored_witness :
    ∃ g, twoGroupsInteraction.data.options.find?
        (fun option => option.kind == CommandOptionType.subCommandGroup) = some g
      ∧ get_subcommand twoGroupsInteraction
          = (twoGroupsInteraction.data.options ++ CommandDataOption.options g).find?
              (fun option => option.kind == CommandOptionType.subCommand)
      ∧ (∀ o, get_subcommand twoGroupsInteraction = some o →
          o ∈ twoGroupsInteraction.data.options ∨ o ∈ CommandDataOption.options g)
      ∧ ((twoGroupsInteraction.data.options ++ CommandDataOption.options g).find?
            (fun option => option.kind == CommandOptionType.subCommand) = none →
          get_subcommand twoGroupsInteraction = none) :=
  second_group_children_ignored twoGroupsInteraction (by decide)

end Chronos
